import Mathlib

/-!
# CoreDHCP command entry point (`cmds/coredhcp/main.go`)

A shallow embedding of the composition root of the CoreDHCP server: the
log-level table, the enumeration of its keys, the list of desired plugins and
the `main` function.  The process-wide logger is threaded explicitly, the
collaborators (`config.Load`, `plugins.RegisterPlugin`, `Server.Start`,
`Server.Wait`) are parameters of a run, and every observable call is appended
to a trace.
-/

namespace Coredhcp

/-! ## The logger -/

/-- Severity levels of the logging library, in its numeric order
(`PanicLevel` is 0, `TraceLevel` is 6). -/
inductive Level
  | PanicLevel
  | FatalLevel
  | ErrorLevel
  | WarnLevel
  | InfoLevel
  | DebugLevel
  | TraceLevel
  deriving DecidableEq, Repr

/-- Numeric value of a level. -/
def Level.toNat : Level → Nat
  | .PanicLevel => 0
  | .FatalLevel => 1
  | .ErrorLevel => 2
  | .WarnLevel => 3
  | .InfoLevel => 4
  | .DebugLevel => 5
  | .TraceLevel => 6

/-- Output writers a logger can be pointed at: the console (`os.Stderr`) or
`ioutil.Discard`, which drops everything written to it. -/
inductive Writer
  | Stderr
  | Discard
  deriving DecidableEq, Repr

/-- A file hook: the file it appends to, and whether that file can be opened
for appending when a message is written (a fact of the file system). -/
structure Hook where
  file : String
  writable : Bool
  deriving DecidableEq, Repr

/-- Logger state: the output writer, the verbosity, and the file hooks that
were added to it. -/
structure Logger where
  out : Writer
  level : Level
  hooks : List Hook
  deriving DecidableEq, Repr

/-- Method `SetOutput` of the logger. -/
def Logger.SetOutput (l : Logger) (w : Writer) : Logger := { l with out := w }

/-- Method `SetLevel` of the logger. -/
def Logger.SetLevel (l : Logger) (lvl : Level) : Logger := { l with level := lvl }

/-- Method `AddHook` of the logger. -/
def Logger.AddHook (l : Logger) (h : Hook) : Logger :=
  { l with hooks := l.hooks ++ [h] }

/-- A message of level `lvl` is processed when the logger's verbosity is at
least `lvl`. -/
def Logger.IsLevelEnabled (l : Logger) (lvl : Level) : Bool :=
  decide (lvl.toNat ≤ l.level.toNat)

/-- Places where an operator can read a message. -/
inductive Sink
  | console
  | file (name : String)
  deriving DecidableEq, Repr

/-- The non-discarding sinks that receive a message of level `lvl`: none when
the level is disabled; otherwise the file of every hook whose file can be
written, and the console unless the output writer is `Discard`. -/
def Logger.sinks (l : Logger) (lvl : Level) : List Sink :=
  if l.IsLevelEnabled lvl then
    (l.hooks.filter (fun h => h.writable)).map (fun h => Sink.file h.file) ++
      (match l.out with
       | .Stderr => [Sink.console]
       | .Discard => [])
  else []

/-- The logger a fresh process gets: console output, `InfoLevel`, no hooks. -/
def logrusNew : Logger := ⟨.Stderr, .InfoLevel, []⟩

/-! ## Collaborator data -/

/-- A Go `error` value. -/
structure GoError where
  msg : String
  deriving DecidableEq, Repr

/-- The configuration document returned by `config.Load`; never inspected. -/
structure config.Config where
  doc : String
  deriving DecidableEq, Repr

/-- A plugin descriptor; `main` reads only its `Name`. -/
structure plugins.Plugin where
  Name : String
  deriving DecidableEq, Repr

/-- Modelled from the spec: the descriptor exported by package `plugins/dns`
(the package is not part of the sources; the name is the spec's). -/
def dns.Plugin : plugins.Plugin := ⟨"dns"⟩

/-- Modelled from the spec: the descriptor exported by package `plugins/file`. -/
def file.Plugin : plugins.Plugin := ⟨"file"⟩

/-- Modelled from the spec: the descriptor exported by package
`plugins/leasetime`. -/
def leasetime.Plugin : plugins.Plugin := ⟨"leasetime"⟩

/-- Modelled from the spec: the descriptor exported by package `plugins/nbp`. -/
def nbp.Plugin : plugins.Plugin := ⟨"nbp"⟩

/-- Modelled from the spec: the descriptor exported by package
`plugins/netmask`. -/
def netmask.Plugin : plugins.Plugin := ⟨"netmask"⟩

/-- Modelled from the spec: the descriptor exported by package `plugins/range`
(imported as `rangepl`). -/
def rangepl.Plugin : plugins.Plugin := ⟨"range"⟩

/-- Modelled from the spec: the descriptor exported by package
`plugins/router`. -/
def router.Plugin : plugins.Plugin := ⟨"router"⟩

/-- Modelled from the spec: the descriptor exported by package
`plugins/serverid`. -/
def serverid.Plugin : plugins.Plugin := ⟨"serverid"⟩

/-- The duration `time.Second`, in nanoseconds. -/
def time.Second : Nat := 1000000000

/-! ## Traces -/

/-- Arguments handed to a logging call. -/
inductive Arg
  | str (s : String)
  | strs (ss : List String)
  | err (e : GoError)
  deriving DecidableEq, Repr

/-- Text of a logging call: a format with its arguments (`Infof`, `Fatalf`) or
bare arguments (`Error`). -/
inductive Msg
  | f (format : String) (args : List Arg)
  | p (args : List Arg)
  deriving DecidableEq, Repr

/-- Observable calls made by `main`.  A `Log` event records the sinks that
actually received the message; collaborator calls record their result. -/
inductive Event
  | Log (lvl : Level) (m : Msg) (sinks : List Sink)
  | fn (after : Logger)
  | WithFile (logfile : String)
  | WithNoStdOutErr
  | Load (err : Option GoError)
  | RegisterPlugin (plugin : plugins.Plugin) (err : Option GoError)
  | NewServer (cfg : config.Config)
  | Start (err : Option GoError)
  | Wait (err : Option GoError)
  | Sleep (d : Nat)
  | Exit (code : Nat)
  deriving DecidableEq, Repr

/-- How the process ended: `main` returned (exit status zero) or the process
was terminated with the given status. -/
inductive Outcome
  | returned
  | exited (code : Nat)
  deriving DecidableEq, Repr

/-- The logger together with the calls made so far. -/
structure State where
  log : Logger
  trace : List Event
  deriving DecidableEq, Repr

/-- A finished run. -/
structure Run where
  outcome : Outcome
  log : Logger
  trace : List Event
  deriving DecidableEq, Repr

/-- Record one call. -/
def State.emit (s : State) (e : Event) : State := { s with trace := s.trace ++ [e] }

/-- A logging call at level `lvl`: recorded together with the sinks the logger
delivers it to in its current state. -/
def State.Log (s : State) (lvl : Level) (m : Msg) : State :=
  s.emit (Event.Log lvl m (s.log.sinks lvl))

/-- Method `Infof`. -/
def State.Infof (s : State) (format : String) (args : List Arg) : State :=
  s.Log .InfoLevel (Msg.f format args)

/-- Method `Error`. -/
def State.Error (s : State) (args : List Arg) : State :=
  s.Log .ErrorLevel (Msg.p args)

/-- Method `Fatalf`: logs at `FatalLevel`, then terminates the process with
status 1. -/
def State.Fatalf (s : State) (format : String) (args : List Arg) : Run :=
  let s := s.Log .FatalLevel (Msg.f format args)
  ⟨.exited 1, s.log, s.trace ++ [Event.Exit 1]⟩

/-- The call `fn(log.Logger)` of a log-level effect. -/
def State.apply (s : State) (fn : Logger → Logger) : State :=
  { log := fn s.log, trace := s.trace ++ [Event.fn (fn s.log)] }

/-- Modelled from the spec: `logger.WithFile` (package `logger` is not part of
the sources) adds a file sink to the logger, next to the existing output.
`canAppend` tells which files can be opened for appending. -/
def logger.WithFile (canAppend : String → Bool) (s : State) (logfile : String) : State :=
  { log := s.log.AddHook ⟨logfile, canAppend logfile⟩,
    trace := s.trace ++ [Event.WithFile logfile] }

/-- Modelled from the spec: `logger.WithNoStdOutErr` (package `logger` is not
part of the sources) suppresses the console sink. -/
def logger.WithNoStdOutErr (s : State) : State :=
  { log := s.log.SetOutput .Discard, trace := s.trace ++ [Event.WithNoStdOutErr] }

/-! ## The program -/

/-- The table `logLevels`: each key with its effect on the logger. -/
def logLevels : List (String × (Logger → Logger)) :=
  [ ("none", fun l => l.SetOutput .Discard),
    ("debug", fun l => l.SetLevel .DebugLevel),
    ("info", fun l => l.SetLevel .InfoLevel),
    ("warning", fun l => l.SetLevel .WarnLevel),
    ("error", fun l => l.SetLevel .ErrorLevel),
    ("fatal", fun l => l.SetLevel .FatalLevel) ]

/-- The keys of `logLevels`. -/
def logLevelKeys : List String := logLevels.map Prod.fst

/-- The keys of a map in the order a `range` loop visits them.  The language
leaves the order open: `choice` selects one of the permutations of the keys
(the order of definition when `choice` is out of range). -/
def rangeKeys {ν : Type} (choice : Nat) (m : List (String × ν)) : List String :=
  (m.map Prod.fst).permutations.getD choice (m.map Prod.fst)

/-- Function `getLogLevels`: ranges over `logLevels` and appends every key
visited; `mapOrder` is the choice of visiting order made for this loop. -/
def getLogLevels (mapOrder : Nat) : List String :=
  (rangeKeys mapOrder logLevels).foldl (fun levels k => levels ++ [k]) []

/-- The list `desiredPlugins`. -/
def desiredPlugins : List plugins.Plugin :=
  [ dns.Plugin,
    file.Plugin,
    leasetime.Plugin,
    nbp.Plugin,
    netmask.Plugin,
    rangepl.Plugin,
    router.Plugin,
    serverid.Plugin ]

/-- Everything a run of `main` depends on: the three flags, the choice of the
order in which the map iteration visits the keys of `logLevels`, which files
can be opened for appending, the logger returned by `logger.GetLogger`, and
the results of the collaborators.  `RegisterPlugin` may depend on the plugins
registered before (its first argument). -/
structure Env where
  flagLogFile : String
  flagLogNoStdout : Bool
  flagLogLevel : String
  mapOrder : Nat
  canAppend : String → Bool
  GetLogger : Logger
  Load : Except GoError config.Config
  RegisterPlugin : List plugins.Plugin → plugins.Plugin → Option GoError
  Start : config.Config → Option GoError
  Wait : config.Config → Option GoError

/-- The error part of a `(value, error)` result. -/
def errOf {α : Type} : Except GoError α → Option GoError
  | .error e => some e
  | .ok _ => none

/-- The registration loop of `main` over the remaining plugins; `done` are the
plugins registered so far.  A failed registration ends the run. -/
def registerPlugins (env : Env) :
    List plugins.Plugin → List plugins.Plugin → State → Except Run State
  | _, [], log => .ok log
  | done, plugin :: rest, log =>
    let err := env.RegisterPlugin done plugin
    let log := log.emit (Event.RegisterPlugin plugin err)
    match err with
    | some err =>
      .error (log.Fatalf "Failed to register plugin '%s': %v" [Arg.str plugin.Name, Arg.err err])
    | none => registerPlugins env (done ++ [plugin]) rest log

/-- Function `main`. -/
def main (env : Env) : Run :=
  let log : State := ⟨env.GetLogger, []⟩
  match logLevels.lookup env.flagLogLevel with
  | none =>
    log.Fatalf "Invalid log level '%s'. Valid log levels are %v"
      [Arg.str env.flagLogLevel, Arg.strs (getLogLevels env.mapOrder)]
  | some fn =>
    let log := log.apply fn
    let log := log.Infof "Setting log level to '%s'" [Arg.str env.flagLogLevel]
    let log :=
      if env.flagLogFile ≠ "" then
        logger.WithFile env.canAppend
          (log.Infof "Logging to file %s" [Arg.str env.flagLogFile]) env.flagLogFile
      else log
    let log :=
      if env.flagLogNoStdout then
        logger.WithNoStdOutErr (log.Infof "Disabling logging to stdout/stderr" [])
      else log
    let log := log.emit (Event.Load (errOf env.Load))
    match env.Load with
    | .error err => log.Fatalf "Failed to load configuration: %v" [Arg.err err]
    | .ok config =>
      match registerPlugins env [] desiredPlugins log with
      | .error run => run
      | .ok log =>
        let log := log.emit (Event.NewServer config)
        let err := env.Start config
        let log := log.emit (Event.Start err)
        match err with
        | some err => log.Fatalf "Failed to start server: %v" [Arg.err err]
        | none =>
          let err := env.Wait config
          let log := log.emit (Event.Wait err)
          let log :=
            match err with
            | some err => log.Error [Arg.err err]
            | none => log
          let log := log.emit (Event.Sleep time.Second)
          ⟨.returned, log.log, log.trace⟩

/-! ## Reading traces -/

/-- Whether an event is a logging call. -/
def Event.isLog : Event → Bool
  | .Log _ _ _ => true
  | _ => false

/-- Whether an event is a call on the server: its construction, `Start` or
`Wait`. -/
def Event.isServer : Event → Bool
  | .NewServer _ => true
  | .Start _ => true
  | .Wait _ => true
  | _ => false

/-- Whether an event is the `Wait` call or the sleep that follows it. -/
def Event.isWaitOrSleep : Event → Bool
  | .Wait _ => true
  | .Sleep _ => true
  | _ => false

/-- The trace without its logging calls. -/
def calls (t : List Event) : List Event := t.filter (fun e => !e.isLog)

/-- The calls to `plugins.RegisterPlugin` in a trace, each with its result. -/
def registrationCalls (t : List Event) : List (plugins.Plugin × Option GoError) :=
  t.filterMap (fun e =>
    match e with
    | .RegisterPlugin p r => some (p, r)
    | _ => none)

/-- Modelled from the spec: the plugin registry (package `plugins` is not part
of the sources) starts empty and appends a descriptor on each successful
registration.  Replaying a trace from contents `reg`, this is the registry at
the moment the server is constructed, if it ever is. -/
def registryAtNewServer : List plugins.Plugin → List Event → Option (List plugins.Plugin)
  | _, [] => none
  | reg, .NewServer _ :: _ => some reg
  | reg, .RegisterPlugin p none :: t => registryAtNewServer (reg ++ [p]) t
  | reg, _ :: t => registryAtNewServer reg t

/-- No registration of a desired plugin fails, each being attempted after the
ones before it in the list. -/
def RegistersAll (env : Env) : Prop :=
  ∀ j p, desiredPlugins[j]? = some p →
    env.RegisterPlugin (desiredPlugins.take j) p = none

/-- The state of `main` once logging is set up (level effect `fn` applied,
file sink and console suppression done), just before `config.Load`. -/
def afterLogging (env : Env) (fn : Logger → Logger) : State :=
  let log : State := ⟨env.GetLogger, []⟩
  let log := log.apply fn
  let log := log.Infof "Setting log level to '%s'" [Arg.str env.flagLogLevel]
  let log :=
    if env.flagLogFile ≠ "" then
      logger.WithFile env.canAppend
        (log.Infof "Logging to file %s" [Arg.str env.flagLogFile]) env.flagLogFile
    else log
  if env.flagLogNoStdout then
    logger.WithNoStdOutErr (log.Infof "Disabling logging to stdout/stderr" [])
  else log

/-- The part of `main` from the construction of the server on, started in
state `log` with the loaded configuration. -/
def serve (env : Env) (config : config.Config) (log : State) : Run :=
  let log := log.emit (Event.NewServer config)
  let err := env.Start config
  let log := log.emit (Event.Start err)
  match err with
  | some err => log.Fatalf "Failed to start server: %v" [Arg.err err]
  | none =>
    let err := env.Wait config
    let log := log.emit (Event.Wait err)
    let log :=
      match err with
      | some err => log.Error [Arg.err err]
      | none => log
    let log := log.emit (Event.Sleep time.Second)
    ⟨.returned, log.log, log.trace⟩

/-! ## Sample runs and visibility of messages -/

/-- Sample run data: every collaborator succeeds, default flags. -/
def okEnv : Env :=
  { flagLogFile := ""
    flagLogNoStdout := false
    flagLogLevel := "info"
    mapOrder := 417
    canAppend := fun _ => true
    GetLogger := logrusNew
    Load := .ok ⟨"server6: ..."⟩
    RegisterPlugin := fun _ _ => none
    Start := fun _ => none
    Wait := fun _ => none }

/-- Sample run data: registering the third desired plugin fails. -/
def regFailEnv : Env :=
  { okEnv with
    RegisterPlugin := fun _ p => if p = leasetime.Plugin then some ⟨"already registered"⟩ else none }

/-- The logging calls of a trace that reached at least one sink. -/
def visibleMessages (t : List Event) : List (Level × Msg) :=
  t.filterMap (fun e =>
    match e with
    | .Log lvl m (_ :: _) => some (lvl, m)
    | _ => none)

/-- The run leaves the logger a place to write to: a log file was given and
can be written, or the console is neither discarded by level "none" nor
suppressed by `-nostdout`. -/
def HasSink (env : Env) : Prop :=
  (env.flagLogFile ≠ "" ∧ env.canAppend env.flagLogFile = true) ∨
    (env.flagLogLevel ≠ "none" ∧ env.flagLogNoStdout = false)

/-- Sample run data: level "none" and a configuration that cannot be loaded. -/
def silentLoadFailEnv : Env :=
  { okEnv with flagLogLevel := "none", Load := .error ⟨"no config file"⟩ }

/-- Sample run data: level "fatal" and a server whose `Wait` returns an error. -/
def fatalWaitErrEnv : Env :=
  { okEnv with flagLogLevel := "fatal", Wait := fun _ => some ⟨"server stopped"⟩ }

/-! ## Lemmas on the log-level table -/

theorem getLogLevels_foldl (order acc : List String) :
    order.foldl (fun levels k => levels ++ [k]) acc = acc ++ order := by
  induction order generalizing acc with
  | nil => simp
  | cons k rest ih => simp [ih]

theorem rangeKeys_perm {ν : Type} (choice : Nat) (m : List (String × ν)) :
    (rangeKeys choice m).Perm (m.map Prod.fst) := by
  unfold rangeKeys
  rw [List.getD_eq_getElem?_getD]
  cases h : (m.map Prod.fst).permutations[choice]? with
  | none => exact List.Perm.refl _
  | some order => exact List.mem_permutations.mp (List.getElem?_mem h)

theorem getLogLevels_eq (mapOrder : Nat) :
    getLogLevels mapOrder = rangeKeys mapOrder logLevels := by
  simp [getLogLevels, getLogLevels_foldl]

theorem getLogLevels_perm (mapOrder : Nat) : (getLogLevels mapOrder).Perm logLevelKeys := by
  rw [getLogLevels_eq]
  exact rangeKeys_perm mapOrder logLevels

/-- Every permutation of the keys is the visiting order of some choice. -/
theorem getLogLevels_reaches (order : List String) (h : order.Perm logLevelKeys) :
    ∃ mapOrder, getLogLevels mapOrder = order := by
  obtain ⟨n, hn⟩ := List.getElem?_of_mem (List.mem_permutations.mpr h)
  refine ⟨n, ?_⟩
  rw [getLogLevels_eq]
  unfold rangeKeys
  rw [List.getD_eq_getElem?_getD]
  change (logLevelKeys.permutations[n]?).getD logLevelKeys = order
  rw [hn]
  rfl

theorem lookup_isSome_iff (s : String) :
    (logLevels.lookup s).isSome ↔ s ∈ logLevelKeys := by
  simp only [logLevels, logLevelKeys, List.lookup, List.map, List.mem_cons,
    List.mem_singleton, List.not_mem_nil, or_false]
  by_cases h1 : s = "none"
  · simp [h1]
  by_cases h2 : s = "debug"
  · subst h2; simp
  by_cases h3 : s = "info"
  · subst h3; simp
  by_cases h4 : s = "warning"
  · subst h4; simp
  by_cases h5 : s = "error"
  · subst h5; simp
  by_cases h6 : s = "fatal"
  · subst h6; simp
  have e1 : (s == "none") = false := beq_eq_false_iff_ne.mpr h1
  have e2 : (s == "debug") = false := beq_eq_false_iff_ne.mpr h2
  have e3 : (s == "info") = false := beq_eq_false_iff_ne.mpr h3
  have e4 : (s == "warning") = false := beq_eq_false_iff_ne.mpr h4
  have e5 : (s == "error") = false := beq_eq_false_iff_ne.mpr h5
  have e6 : (s == "fatal") = false := beq_eq_false_iff_ne.mpr h6
  simp [h1, h2, h3, h4, h5, h6, e1, e2, e3, e4, e5, e6]

theorem lookup_none_of_not_mem (s : String)
    (h : s ∉ ["none", "debug", "info", "warning", "error", "fatal"]) :
    logLevels.lookup s = none := by
  have h2 : ¬ (logLevels.lookup s).isSome := by
    rw [lookup_isSome_iff]; exact h
  cases hl : logLevels.lookup s with
  | none => rfl
  | some fn => rw [hl] at h2; simp at h2

/-! ## Lemmas on the registration loop -/

theorem registerPlugins_ok (env : Env) :
    ∀ (ps done : List plugins.Plugin) (s : State),
      (∀ j p, ps[j]? = some p → env.RegisterPlugin (done ++ ps.take j) p = none) →
      registerPlugins env done ps s =
        .ok ⟨s.log, s.trace ++ ps.map (fun p => Event.RegisterPlugin p none)⟩ := by
  intro ps
  induction ps with
  | nil => intro done s _; simp [registerPlugins]
  | cons p rest ih =>
    intro done s h
    have h0 : env.RegisterPlugin done p = none := by
      have := h 0 p (by simp)
      simpa using this
    have hrest : ∀ j q, rest[j]? = some q →
        env.RegisterPlugin ((done ++ [p]) ++ rest.take j) q = none := by
      intro j q hj
      have := h (j + 1) q (by simpa using hj)
      simpa using this
    rw [registerPlugins]
    simp only [h0]
    rw [ih (done ++ [p]) _ hrest]
    simp [State.emit]

theorem registerPlugins_fail (env : Env) :
    ∀ (ps done : List plugins.Plugin) (s : State) (i : Nat) (p : plugins.Plugin) (e : GoError),
      ps[i]? = some p →
      (∀ j q, j < i → ps[j]? = some q → env.RegisterPlugin (done ++ ps.take j) q = none) →
      env.RegisterPlugin (done ++ ps.take i) p = some e →
      registerPlugins env done ps s =
        .error (State.Fatalf
          ⟨s.log, s.trace ++ (ps.take i).map (fun q => Event.RegisterPlugin q none)
            ++ [Event.RegisterPlugin p (some e)]⟩
          "Failed to register plugin '%s': %v" [Arg.str p.Name, Arg.err e]) := by
  intro ps
  induction ps with
  | nil => intro done s i p e hi; simp at hi
  | cons p0 rest ih =>
    intro done s i p e hi hprev hfail
    cases i with
    | zero =>
      have hp : p0 = p := by simpa using hi
      subst hp
      have hf : env.RegisterPlugin done p0 = some e := by simpa using hfail
      rw [registerPlugins]
      simp [hf, State.emit]
    | succ i =>
      have h0 : env.RegisterPlugin done p0 = none := by
        have := hprev 0 p0 (Nat.succ_pos i) (by simp)
        simpa using this
      have hi2 : rest[i]? = some p := by simpa using hi
      have hprev2 : ∀ j q, j < i → rest[j]? = some q →
          env.RegisterPlugin ((done ++ [p0]) ++ rest.take j) q = none := by
        intro j q hj hq
        have := hprev (j + 1) q (Nat.succ_lt_succ hj) (by simpa using hq)
        simpa using this
      have hfail2 : env.RegisterPlugin ((done ++ [p0]) ++ rest.take i) p = some e := by
        simpa using hfail
      rw [registerPlugins]
      simp only [h0]
      rw [ih (done ++ [p0]) _ i p e hi2 hprev2 hfail2]
      simp [State.emit]

/-! ## The shape of a run -/

theorem main_of_lookup (env : Env) (fn : Logger → Logger)
    (h : logLevels.lookup env.flagLogLevel = some fn) :
    main env =
      match env.Load with
      | .error err =>
        ((afterLogging env fn).emit (Event.Load (errOf env.Load))).Fatalf
          "Failed to load configuration: %v" [Arg.err err]
      | .ok config =>
        match registerPlugins env [] desiredPlugins
            ((afterLogging env fn).emit (Event.Load (errOf env.Load))) with
        | .error run => run
        | .ok log => serve env config log := by
  unfold main
  simp only [h]
  rfl

theorem main_load_fail (env : Env) (fn : Logger → Logger) (e : GoError)
    (hlvl : logLevels.lookup env.flagLogLevel = some fn) (hload : env.Load = .error e) :
    main env =
      State.Fatalf ⟨(afterLogging env fn).log, (afterLogging env fn).trace ++ [Event.Load (some e)]⟩
        "Failed to load configuration: %v" [Arg.err e] := by
  rw [main_of_lookup env fn hlvl, hload]
  rfl

theorem main_register_fail (env : Env) (fn : Logger → Logger) (cfg : config.Config)
    (i : Nat) (p : plugins.Plugin) (e : GoError)
    (hlvl : logLevels.lookup env.flagLogLevel = some fn) (hload : env.Load = .ok cfg)
    (hi : desiredPlugins[i]? = some p)
    (hprev : ∀ j q, j < i → desiredPlugins[j]? = some q →
      env.RegisterPlugin (desiredPlugins.take j) q = none)
    (hfail : env.RegisterPlugin (desiredPlugins.take i) p = some e) :
    main env =
      State.Fatalf
        ⟨(afterLogging env fn).log,
          (afterLogging env fn).trace ++ [Event.Load none]
            ++ (desiredPlugins.take i).map (fun q => Event.RegisterPlugin q none)
            ++ [Event.RegisterPlugin p (some e)]⟩
        "Failed to register plugin '%s': %v" [Arg.str p.Name, Arg.err e] := by
  rw [main_of_lookup env fn hlvl, hload]
  simp only
  rw [registerPlugins_fail env desiredPlugins [] _ i p e hi
    (by simpa using hprev) (by simpa using hfail)]
  rfl

theorem main_registered (env : Env) (fn : Logger → Logger) (cfg : config.Config)
    (hlvl : logLevels.lookup env.flagLogLevel = some fn) (hload : env.Load = .ok cfg)
    (hreg : RegistersAll env) :
    main env =
      serve env cfg
        ⟨(afterLogging env fn).log,
          (afterLogging env fn).trace ++ [Event.Load none]
            ++ desiredPlugins.map (fun q => Event.RegisterPlugin q none)⟩ := by
  rw [main_of_lookup env fn hlvl, hload]
  simp only
  rw [registerPlugins_ok env desiredPlugins [] _ (by simpa [RegistersAll] using hreg)]
  rfl

/-- The trace of the logging set-up: the level effect, then the optional file
sink and console suppression, with the informational messages in between. -/
theorem afterLogging_calls (env : Env) (fn : Logger → Logger) :
    calls (afterLogging env fn).trace =
      [Event.fn (fn env.GetLogger)]
        ++ (if env.flagLogFile ≠ "" then [Event.WithFile env.flagLogFile] else [])
        ++ (if env.flagLogNoStdout then [Event.WithNoStdOutErr] else []) := by
  unfold afterLogging
  by_cases h1 : env.flagLogFile = "" <;> by_cases h2 : env.flagLogNoStdout = true <;>
    simp [h1, h2, calls, State.apply, State.Infof, State.Log, State.emit, logger.WithFile,
      logger.WithNoStdOutErr, Event.isLog, List.filter]

theorem afterLogging_no_server (env : Env) (fn : Logger → Logger) :
    ∀ ev ∈ (afterLogging env fn).trace,
      ev.isServer = false ∧ ev.isWaitOrSleep = false ∧
        (∀ p r, ev ≠ Event.RegisterPlugin p r) ∧ (∀ c, ev ≠ Event.Exit c) := by
  unfold afterLogging
  by_cases h1 : env.flagLogFile = "" <;> by_cases h2 : env.flagLogNoStdout = true <;>
    simp [h1, h2, State.apply, State.Infof, State.Log, State.emit, logger.WithFile,
      logger.WithNoStdOutErr, Event.isServer, Event.isWaitOrSleep]

theorem registrationCalls_afterLogging (env : Env) (fn : Logger → Logger) :
    registrationCalls (afterLogging env fn).trace = [] := by
  unfold afterLogging
  by_cases h1 : env.flagLogFile = "" <;> by_cases h2 : env.flagLogNoStdout = true <;>
    simp [h1, h2, registrationCalls, State.apply, State.Infof, State.Log, State.emit,
      logger.WithFile, logger.WithNoStdOutErr]

theorem registrationCalls_append (a b : List Event) :
    registrationCalls (a ++ b) = registrationCalls a ++ registrationCalls b := by
  simp [registrationCalls, List.filterMap_append]

theorem registrationCalls_map_ok (l : List plugins.Plugin) :
    registrationCalls (l.map (fun q => Event.RegisterPlugin q none)) =
      l.map (fun q => (q, none)) := by
  induction l with
  | nil => rfl
  | cons a rest ih =>
    simp only [List.map_cons]
    rw [← ih]
    rfl

theorem registryAtNewServer_afterLogging (env : Env) (fn : Logger → Logger)
    (reg : List plugins.Plugin) (t : List Event) :
    registryAtNewServer reg ((afterLogging env fn).trace ++ t) = registryAtNewServer reg t := by
  unfold afterLogging
  by_cases h1 : env.flagLogFile = "" <;> by_cases h2 : env.flagLogNoStdout = true <;>
    simp [h1, h2, registryAtNewServer, State.apply, State.Infof, State.Log, State.emit,
      logger.WithFile, logger.WithNoStdOutErr]

theorem registryAtNewServer_registrations (ps : List plugins.Plugin) :
    ∀ (reg : List plugins.Plugin) (c : config.Config) (t : List Event),
      registryAtNewServer reg
          (ps.map (fun p => Event.RegisterPlugin p none) ++ Event.NewServer c :: t)
        = some (reg ++ ps) := by
  induction ps with
  | nil => intro reg c t; simp [registryAtNewServer]
  | cons p rest ih =>
    intro reg c t
    have h := ih (reg ++ [p]) c t
    simp [registryAtNewServer, h]

/-! ## The logger after set-up -/

theorem lookup_cases (s : String) (fn : Logger → Logger)
    (h : logLevels.lookup s = some fn) :
    (s = "none" ∧ fn = fun l => l.SetOutput .Discard) ∨
    (s = "debug" ∧ fn = fun l => l.SetLevel .DebugLevel) ∨
    (s = "info" ∧ fn = fun l => l.SetLevel .InfoLevel) ∨
    (s = "warning" ∧ fn = fun l => l.SetLevel .WarnLevel) ∨
    (s = "error" ∧ fn = fun l => l.SetLevel .ErrorLevel) ∨
    (s = "fatal" ∧ fn = fun l => l.SetLevel .FatalLevel) := by
  by_cases h1 : s = "none"
  · subst h1; simp [logLevels, List.lookup] at h; simp [← h]
  by_cases h2 : s = "debug"
  · subst h2; simp [logLevels, List.lookup] at h; simp [← h]
  by_cases h3 : s = "info"
  · subst h3; simp [logLevels, List.lookup] at h; simp [← h]
  by_cases h4 : s = "warning"
  · subst h4; simp [logLevels, List.lookup] at h; simp [← h]
  by_cases h5 : s = "error"
  · subst h5; simp [logLevels, List.lookup] at h; simp [← h]
  by_cases h6 : s = "fatal"
  · subst h6; simp [logLevels, List.lookup] at h; simp [← h]
  have hn := lookup_none_of_not_mem s (by simp [h1, h2, h3, h4, h5, h6])
  rw [hn] at h
  cases h

theorem registerPlugins_log (env : Env) :
    ∀ (ps done : List plugins.Plugin) (s : State),
      match registerPlugins env done ps s with
      | .ok s2 => s2.log = s.log
      | .error r => r.log = s.log := by
  intro ps
  induction ps with
  | nil => intro done s; simp [registerPlugins]
  | cons p rest ih =>
    intro done s
    rw [registerPlugins]
    cases hr : env.RegisterPlugin done p with
    | some e => simp [State.Fatalf, State.Log, State.emit]
    | none =>
      have h := ih (done ++ [p]) (s.emit (Event.RegisterPlugin p none))
      simpa [State.emit] using h

theorem main_log (env : Env) (fn : Logger → Logger)
    (hlvl : logLevels.lookup env.flagLogLevel = some fn) :
    (main env).log = (afterLogging env fn).log := by
  rw [main_of_lookup env fn hlvl]
  cases hload : env.Load with
  | error e => simp [State.Fatalf, State.Log, State.emit]
  | ok cfg =>
    simp only
    have h := registerPlugins_log env desiredPlugins []
      ((afterLogging env fn).emit (Event.Load (errOf (Except.ok cfg : Except GoError config.Config))))
    cases hr : registerPlugins env [] desiredPlugins
      ((afterLogging env fn).emit (Event.Load (errOf (Except.ok cfg : Except GoError config.Config)))) with
    | error r =>
      rw [hr] at h
      simpa [State.emit] using h
    | ok s2 =>
      rw [hr] at h
      have h2 : s2.log = (afterLogging env fn).log := by simpa [State.emit] using h
      cases hs : env.Start cfg <;> cases hw : env.Wait cfg <;>
        simp [serve, hs, hw, State.Fatalf, State.Error, State.Log, State.emit, h2]

theorem afterLogging_log (env : Env) (fn : Logger → Logger) :
    (afterLogging env fn).log =
      (if env.flagLogNoStdout then
        (if env.flagLogFile ≠ "" then
            (fn env.GetLogger).AddHook ⟨env.flagLogFile, env.canAppend env.flagLogFile⟩
          else fn env.GetLogger).SetOutput .Discard
       else
        (if env.flagLogFile ≠ "" then
            (fn env.GetLogger).AddHook ⟨env.flagLogFile, env.canAppend env.flagLogFile⟩
          else fn env.GetLogger)) := by
  unfold afterLogging
  by_cases h1 : env.flagLogFile = "" <;> by_cases h2 : env.flagLogNoStdout = true <;>
    simp [h1, h2, State.apply, State.Infof, State.Log, State.emit, logger.WithFile,
      logger.WithNoStdOutErr]

theorem sinks_fatal_iff (env : Env) (fn : Logger → Logger)
    (hlog : env.GetLogger = logrusNew)
    (hlvl : logLevels.lookup env.flagLogLevel = some fn) :
    (afterLogging env fn).log.sinks .FatalLevel ≠ [] ↔ HasSink env := by
  rw [afterLogging_log, hlog]
  rcases lookup_cases _ _ hlvl with h | h | h | h | h | h <;>
    obtain ⟨hs, hf⟩ := h <;> subst hf <;>
    by_cases h1 : env.flagLogFile = "" <;> by_cases h2 : env.flagLogNoStdout = true <;>
    cases h3 : env.canAppend env.flagLogFile <;>
    simp [h1, h2, h3, hs, HasSink, logrusNew, Logger.sinks, Logger.IsLevelEnabled, Level.toNat,
      Logger.SetOutput, Logger.SetLevel, Logger.AddHook]

theorem sinks_error_iff (env : Env) (fn : Logger → Logger)
    (hlog : env.GetLogger = logrusNew)
    (hlvl : logLevels.lookup env.flagLogLevel = some fn) :
    (afterLogging env fn).log.sinks .ErrorLevel ≠ [] ↔
      (env.flagLogLevel ≠ "fatal" ∧ HasSink env) := by
  rw [afterLogging_log, hlog]
  rcases lookup_cases _ _ hlvl with h | h | h | h | h | h <;>
    obtain ⟨hs, hf⟩ := h <;> subst hf <;>
    by_cases h1 : env.flagLogFile = "" <;> by_cases h2 : env.flagLogNoStdout = true <;>
    cases h3 : env.canAppend env.flagLogFile <;>
    simp [h1, h2, h3, hs, HasSink, logrusNew, Logger.sinks, Logger.IsLevelEnabled, Level.toNat,
      Logger.SetOutput, Logger.SetLevel, Logger.AddHook]

/-! ## The claims -/

/-- C1: for every value of `-loglevel` that is not exactly one of the six keys,
the lookup fails and `main` ends with the fatal invalid-log-level message and
exit status 1; the logger is the one `main` started with, and the trace holds
nothing but that message and the exit, so the configuration is not loaded, no
plugin is registered and no server is constructed. -/
theorem C1_invalid_log_level_is_fatal (env : Env)
    (h : env.flagLogLevel ∉ ["none", "debug", "info", "warning", "error", "fatal"]) :
    logLevels.lookup env.flagLogLevel = none ∧
    (main env).outcome = .exited 1 ∧
    (main env).log = env.GetLogger ∧
    (main env).trace =
      [ Event.Log .FatalLevel
          (Msg.f "Invalid log level '%s'. Valid log levels are %v"
            [Arg.str env.flagLogLevel, Arg.strs (getLogLevels env.mapOrder)])
          (env.GetLogger.sinks .FatalLevel),
        Event.Exit 1 ] := by
  have hl := lookup_none_of_not_mem env.flagLogLevel h
  refine ⟨hl, ?_, ?_, ?_⟩ <;>
    simp [main, hl, State.Fatalf, State.Log, State.emit]

/-- C1 at the values "INFO", "warn", "" and "info ": each run is fatal. -/
theorem C1_invalid_log_level_is_fatal_witness :
    (main { okEnv with flagLogLevel := "INFO" }).outcome = .exited 1 ∧
    (main { okEnv with flagLogLevel := "warn" }).outcome = .exited 1 ∧
    (main { okEnv with flagLogLevel := "" }).outcome = .exited 1 ∧
    (main { okEnv with flagLogLevel := "info " }).outcome = .exited 1 :=
  ⟨(C1_invalid_log_level_is_fatal { okEnv with flagLogLevel := "INFO" } (by decide)).2.1,
   (C1_invalid_log_level_is_fatal { okEnv with flagLogLevel := "warn" } (by decide)).2.1,
   (C1_invalid_log_level_is_fatal { okEnv with flagLogLevel := "" } (by decide)).2.1,
   (C1_invalid_log_level_is_fatal { okEnv with flagLogLevel := "info " } (by decide)).2.1⟩

/-- C2: each of the six keys resolves, and its effect on any logger is the
documented one: "debug", "info", "warning", "error" and "fatal" set the level
to Debug, Info, Warn, Error and Fatal and change nothing else; "none" sets the
output to the discard writer and changes nothing else. -/
theorem C2_log_level_effects (l : Logger) :
    (logLevels.lookup "debug").map (fun fn => fn l) = some { l with level := .DebugLevel } ∧
    (logLevels.lookup "info").map (fun fn => fn l) = some { l with level := .InfoLevel } ∧
    (logLevels.lookup "warning").map (fun fn => fn l) = some { l with level := .WarnLevel } ∧
    (logLevels.lookup "error").map (fun fn => fn l) = some { l with level := .ErrorLevel } ∧
    (logLevels.lookup "fatal").map (fun fn => fn l) = some { l with level := .FatalLevel } ∧
    (logLevels.lookup "none").map (fun fn => fn l) = some { l with out := .Discard } := by
  refine ⟨?_, ?_, ?_, ?_, ?_, ?_⟩ <;>
    simp [logLevels, List.lookup, Logger.SetLevel, Logger.SetOutput]

/-- C3: when the log level resolves, the configuration loads and no
registration fails, the registration calls of `main` are exactly the elements
of `desiredPlugins`, once each and in the list's order (dns, file, leasetime,
nbp, netmask, range, router, serverid); so a registry that starts empty and
appends on each success holds `desiredPlugins` when the server is constructed. -/
theorem C3_registers_desired_in_order (env : Env) (fn : Logger → Logger)
    (cfg : config.Config)
    (hlvl : logLevels.lookup env.flagLogLevel = some fn) (hload : env.Load = .ok cfg)
    (hreg : RegistersAll env) :
    registrationCalls (main env).trace = desiredPlugins.map (fun p => (p, none)) ∧
    desiredPlugins =
      [ dns.Plugin, file.Plugin, leasetime.Plugin, nbp.Plugin, netmask.Plugin, rangepl.Plugin,
        router.Plugin, serverid.Plugin ] ∧
    registryAtNewServer [] (main env).trace = some desiredPlugins := by
  rw [main_registered env fn cfg hlvl hload hreg]
  have hA := registrationCalls_afterLogging env fn
  unfold registrationCalls at hA
  refine ⟨?_, rfl, ?_⟩
  · cases hs : env.Start cfg <;> cases hw : env.Wait cfg <;>
      simp [serve, hs, hw, registrationCalls, State.emit, State.Fatalf, State.Log, State.Error,
        List.filterMap_append, hA, desiredPlugins]
  · have hR := registryAtNewServer_registrations desiredPlugins [] cfg
    cases hs : env.Start cfg <;> cases hw : env.Wait cfg <;>
      simp [serve, hs, hw, State.emit, State.Fatalf, State.Log, State.Error,
        registryAtNewServer_afterLogging, registryAtNewServer, hR] <;> rfl

/-- C3 on a run where every collaborator succeeds. -/
theorem C3_registers_desired_in_order_witness :
    registryAtNewServer [] (main okEnv).trace = some desiredPlugins :=
  (C3_registers_desired_in_order okEnv (fun l => l.SetLevel .InfoLevel) ⟨"server6: ..."⟩
    rfl rfl (fun _ _ _ => rfl)).2.2

/-- C4: if the registration of the plugin at index `i` of `desiredPlugins`
fails after all earlier ones succeeded, `main` ends there with the fatal
registration message and exit status 1: the registration calls are exactly the
first `i` plugins (successes) followed by the failing one, so no later plugin
is registered, and the server is never constructed, started or waited on. -/
theorem C4_registration_fail_closed (env : Env) (fn : Logger → Logger)
    (cfg : config.Config) (i : Nat) (p : plugins.Plugin) (e : GoError)
    (hlvl : logLevels.lookup env.flagLogLevel = some fn) (hload : env.Load = .ok cfg)
    (hi : desiredPlugins[i]? = some p)
    (hprev : ∀ j q, j < i → desiredPlugins[j]? = some q →
      env.RegisterPlugin (desiredPlugins.take j) q = none)
    (hfail : env.RegisterPlugin (desiredPlugins.take i) p = some e) :
    (main env).outcome = .exited 1 ∧
    registrationCalls (main env).trace =
      (desiredPlugins.take i).map (fun q => (q, none)) ++ [(p, some e)] ∧
    (∀ ev ∈ (main env).trace, ev.isServer = false) ∧
    (∃ pre sinks, (main env).trace =
      pre ++ [ Event.RegisterPlugin p (some e),
               Event.Log .FatalLevel
                 (Msg.f "Failed to register plugin '%s': %v" [Arg.str p.Name, Arg.err e]) sinks,
               Event.Exit 1 ]) := by
  rw [main_register_fail env fn cfg i p e hlvl hload hi hprev hfail]
  refine ⟨rfl, ?_, ?_, ?_⟩
  · simp only [State.Fatalf, State.Log, State.emit, registrationCalls_append,
      registrationCalls_afterLogging, registrationCalls_map_ok]
    simp [registrationCalls]
  · intro ev hev
    simp only [State.Fatalf, State.Log, State.emit, List.mem_append, List.mem_map,
      List.mem_singleton] at hev
    rcases hev with (((((h | h) | ⟨q, _, h⟩) | h) | h) | h)
    · exact (afterLogging_no_server env fn ev h).1
    all_goals subst h; rfl
  · exact ⟨(afterLogging env fn).trace ++ [Event.Load none]
        ++ (desiredPlugins.take i).map (fun q => Event.RegisterPlugin q none),
      (afterLogging env fn).log.sinks .FatalLevel,
      by simp [State.Fatalf, State.Log, State.emit]⟩

/-- C4 on a run where registering the third plugin, leasetime, fails. -/
theorem C4_registration_fail_closed_witness :
    (main regFailEnv).outcome = .exited 1 ∧
    registrationCalls (main regFailEnv).trace =
      [(dns.Plugin, none), (file.Plugin, none), (leasetime.Plugin, some ⟨"already registered"⟩)] :=
  have h := C4_registration_fail_closed regFailEnv (fun l => l.SetLevel .InfoLevel)
    ⟨"server6: ..."⟩ 2 leasetime.Plugin ⟨"already registered"⟩ rfl rfl rfl
    (by
      intro j q hj hq
      have hq2 : q ≠ leasetime.Plugin := by
        interval_cases j <;> simp [desiredPlugins] at hq <;> subst hq <;> decide
      simp [regFailEnv, hq2])
    (by decide)
  ⟨h.1, h.2.1⟩

/-- C5: if `config.Load` fails, `main` ends with the fatal configuration
message and exit status 1 right after the call: no registration call was made
(the registry is untouched) and there is no call on the server. -/
theorem C5_load_failure_short_circuits (env : Env) (fn : Logger → Logger) (e : GoError)
    (hlvl : logLevels.lookup env.flagLogLevel = some fn) (hload : env.Load = .error e) :
    (main env).outcome = .exited 1 ∧
    registrationCalls (main env).trace = [] ∧
    (∀ ev ∈ (main env).trace, ev.isServer = false) ∧
    (∃ pre sinks, (main env).trace =
      pre ++ [ Event.Load (some e),
               Event.Log .FatalLevel (Msg.f "Failed to load configuration: %v" [Arg.err e]) sinks,
               Event.Exit 1 ]) := by
  rw [main_load_fail env fn e hlvl hload]
  have hA := registrationCalls_afterLogging env fn
  unfold registrationCalls at hA
  refine ⟨rfl, ?_, ?_, ?_⟩
  · simp [registrationCalls, State.Fatalf, State.Log, State.emit, List.filterMap_append, hA]
  · intro ev hev
    simp only [State.Fatalf, State.Log, State.emit, List.mem_append,
      List.mem_singleton] at hev
    rcases hev with (((h | h) | h) | h)
    · exact (afterLogging_no_server env fn ev h).1
    all_goals subst h; rfl
  · exact ⟨(afterLogging env fn).trace, (afterLogging env fn).log.sinks .FatalLevel,
      by simp [State.Fatalf, State.Log, State.emit]⟩

/-- C5 on a run whose configuration cannot be loaded. -/
theorem C5_load_failure_short_circuits_witness :
    (main { okEnv with Load := .error ⟨"no config file"⟩ }).outcome = .exited 1 ∧
    registrationCalls (main { okEnv with Load := .error ⟨"no config file"⟩ }).trace = [] :=
  have h := C5_load_failure_short_circuits { okEnv with Load := .error ⟨"no config file"⟩ }
    (fun l => l.SetLevel .InfoLevel) ⟨"no config file"⟩ rfl rfl
  ⟨h.1, h.2.1⟩

/-- C6: if `Start` fails, `main` ends with the fatal start message and exit
status 1 right after the call: the trace holds neither a `Wait` call nor the
sleep. -/
theorem C6_start_failure_skips_wait (env : Env) (fn : Logger → Logger)
    (cfg : config.Config) (e : GoError)
    (hlvl : logLevels.lookup env.flagLogLevel = some fn) (hload : env.Load = .ok cfg)
    (hreg : RegistersAll env) (hstart : env.Start cfg = some e) :
    (main env).outcome = .exited 1 ∧
    (∀ ev ∈ (main env).trace, ev.isWaitOrSleep = false) ∧
    (∃ pre sinks, (main env).trace =
      pre ++ [ Event.NewServer cfg,
               Event.Start (some e),
               Event.Log .FatalLevel (Msg.f "Failed to start server: %v" [Arg.err e]) sinks,
               Event.Exit 1 ]) := by
  rw [main_registered env fn cfg hlvl hload hreg]
  simp only [serve, hstart]
  refine ⟨rfl, ?_, ?_⟩
  · intro ev hev
    simp only [State.Fatalf, State.Log, State.emit, List.mem_append, List.mem_map,
      List.mem_singleton] at hev
    rcases hev with ((((((h | h) | ⟨q, _, h⟩) | h) | h) | h) | h)
    · exact (afterLogging_no_server env fn ev h).2.1
    all_goals subst h; rfl
  · exact ⟨(afterLogging env fn).trace ++ [Event.Load none]
        ++ desiredPlugins.map (fun q => Event.RegisterPlugin q none),
      (afterLogging env fn).log.sinks .FatalLevel,
      by simp [State.Fatalf, State.Log, State.emit]⟩

/-- C6 on a run whose server cannot start. -/
theorem C6_start_failure_skips_wait_witness :
    (main { okEnv with Start := fun _ => some ⟨"bind: address in use"⟩ }).outcome = .exited 1 :=
  (C6_start_failure_skips_wait { okEnv with Start := fun _ => some ⟨"bind: address in use"⟩ }
    (fun l => l.SetLevel .InfoLevel) ⟨"server6: ..."⟩ ⟨"bind: address in use"⟩
    rfl rfl (fun _ _ _ => rfl) rfl).1

/-- C7: once `Start` has succeeded, whatever `Wait` returns, `main` returns
normally (exit status zero) and its trace ends with the `Wait` call, an
error-level log call of the error when `Wait` returned one, and the sleep of
one second; the trace holds no process exit. -/
theorem C7_grace_delay_after_wait (env : Env) (fn : Logger → Logger)
    (cfg : config.Config)
    (hlvl : logLevels.lookup env.flagLogLevel = some fn) (hload : env.Load = .ok cfg)
    (hreg : RegistersAll env) (hstart : env.Start cfg = none) :
    (main env).outcome = .returned ∧
    (∀ c, Event.Exit c ∉ (main env).trace) ∧
    (∃ pre sinks, (main env).trace =
      pre ++ [Event.Start none, Event.Wait (env.Wait cfg)]
        ++ (match env.Wait cfg with
            | some err => [Event.Log .ErrorLevel (Msg.p [Arg.err err]) sinks]
            | none => [])
        ++ [Event.Sleep 1000000000]) := by
  rw [main_registered env fn cfg hlvl hload hreg]
  simp only [serve, hstart]
  refine ⟨trivial, ?_, ?_⟩
  · intro c hc
    cases hw : env.Wait cfg <;>
      simp only [hw, State.Error, State.Log, State.emit, List.mem_append, List.mem_map,
        List.mem_singleton] at hc
    · rcases hc with ((((((h | h) | ⟨q, _, h⟩) | h) | h) | h) | h)
      · exact (afterLogging_no_server env fn _ h).2.2.2 c rfl
      all_goals cases h
    · rcases hc with (((((((h | h) | ⟨q, _, h⟩) | h) | h) | h) | h) | h)
      · exact (afterLogging_no_server env fn _ h).2.2.2 c rfl
      all_goals cases h
  · refine ⟨(afterLogging env fn).trace ++ [Event.Load none]
        ++ desiredPlugins.map (fun q => Event.RegisterPlugin q none) ++ [Event.NewServer cfg],
      (afterLogging env fn).log.sinks .ErrorLevel, ?_⟩
    cases hw : env.Wait cfg <;>
      simp [State.Error, State.Log, State.emit, time.Second]

/-- C7 on a run whose `Wait` returns an error. -/
theorem C7_grace_delay_after_wait_witness :
    (main { okEnv with Wait := fun _ => some ⟨"server stopped"⟩ }).outcome = .returned :=
  (C7_grace_delay_after_wait { okEnv with Wait := fun _ => some ⟨"server stopped"⟩ }
    (fun l => l.SetLevel .InfoLevel) ⟨"server6: ..."⟩ rfl rfl (fun _ _ _ => rfl) rfl).1

/-- C8: on a run in which nothing fails, the calls of `main` other than
logging calls are exactly, in this order: the resolved level effect on the
logger; `WithFile` exactly when `-logfile` is not empty; `WithNoStdOutErr`
exactly when `-nostdout` is set; `Load`; the registration of each desired
plugin in order; `NewServer` on the configuration `Load` returned; `Start`;
`Wait`; the sleep of one second.  Then `main` returns. -/
theorem C8_bootstrap_sequence (env : Env) (fn : Logger → Logger)
    (cfg : config.Config)
    (hlvl : logLevels.lookup env.flagLogLevel = some fn) (hload : env.Load = .ok cfg)
    (hreg : RegistersAll env) (hstart : env.Start cfg = none) (hwait : env.Wait cfg = none) :
    calls (main env).trace =
      [Event.fn (fn env.GetLogger)]
        ++ (if env.flagLogFile ≠ "" then [Event.WithFile env.flagLogFile] else [])
        ++ (if env.flagLogNoStdout then [Event.WithNoStdOutErr] else [])
        ++ [Event.Load none]
        ++ desiredPlugins.map (fun p => Event.RegisterPlugin p none)
        ++ [Event.NewServer cfg, Event.Start none, Event.Wait none, Event.Sleep 1000000000] ∧
    (main env).outcome = .returned := by
  rw [main_registered env fn cfg hlvl hload hreg]
  simp only [serve, hstart, hwait]
  refine ⟨?_, trivial⟩
  have hA := afterLogging_calls env fn
  unfold calls at hA
  simp only [calls, State.emit, List.filter_append, hA]
  simp [desiredPlugins, Event.isLog, time.Second]

/-- C8 on a run with a log file, console suppression and no failure. -/
theorem C8_bootstrap_sequence_witness :
    calls (main { okEnv with flagLogFile := "/var/log/coredhcp.log", flagLogNoStdout := true }).trace =
      [ Event.fn ⟨.Stderr, .InfoLevel, []⟩,
        Event.WithFile "/var/log/coredhcp.log",
        Event.WithNoStdOutErr,
        Event.Load none,
        Event.RegisterPlugin dns.Plugin none,
        Event.RegisterPlugin file.Plugin none,
        Event.RegisterPlugin leasetime.Plugin none,
        Event.RegisterPlugin nbp.Plugin none,
        Event.RegisterPlugin netmask.Plugin none,
        Event.RegisterPlugin rangepl.Plugin none,
        Event.RegisterPlugin router.Plugin none,
        Event.RegisterPlugin serverid.Plugin none,
        Event.NewServer ⟨"server6: ..."⟩,
        Event.Start none,
        Event.Wait none,
        Event.Sleep 1000000000 ] :=
  (C8_bootstrap_sequence
    { okEnv with flagLogFile := "/var/log/coredhcp.log", flagLogNoStdout := true }
    (fun l => l.SetLevel .InfoLevel) ⟨"server6: ..."⟩ rfl rfl (fun _ _ _ => rfl) rfl rfl).1

/-- C9 fails as stated.  With `-loglevel none` and a configuration that cannot
be loaded, the run is fatal and every logging call, the fatal one included,
reaches no sink; with `-loglevel fatal` and an error from `Wait`, the
error-level call reaches no sink either. -/
theorem C9_counterexample :
    (main silentLoadFailEnv).outcome = .exited 1 ∧
    (main silentLoadFailEnv).trace =
      [ Event.fn ⟨.Discard, .InfoLevel, []⟩,
        Event.Log .InfoLevel (Msg.f "Setting log level to '%s'" [Arg.str "none"]) [],
        Event.Load (some ⟨"no config file"⟩),
        Event.Log .FatalLevel
          (Msg.f "Failed to load configuration: %v" [Arg.err ⟨"no config file"⟩]) [],
        Event.Exit 1 ] ∧
    visibleMessages (main silentLoadFailEnv).trace = [] ∧
    Event.Log .ErrorLevel (Msg.p [Arg.err ⟨"server stopped"⟩]) [] ∈ (main fatalWaitErrEnv).trace ∧
    visibleMessages (main fatalWaitErrEnv).trace = [] := by
  refine ⟨?_, ?_, ?_, ?_, ?_⟩ <;> decide

/-- C9, amended: each of the four fatal failure paths makes a fatal-level
logging call whose text names the stage that failed (invalid log level,
configuration load, plugin registration, server start), and an error from
`Wait` makes an error-level logging call.  Starting from a fresh logger, the
invalid-log-level message reaches the console; the other fatal messages reach
a sink exactly when a log file was given and can be written, or the console
is neither discarded by level "none" nor suppressed by `-nostdout`; the call
for the `Wait` error reaches a sink exactly when, in addition, the level is
not "fatal". -/
theorem C9_failure_reports (env : Env) (hlog : env.GetLogger = logrusNew) :
    (logLevels.lookup env.flagLogLevel = none →
      Event.Log .FatalLevel
        (Msg.f "Invalid log level '%s'. Valid log levels are %v"
          [Arg.str env.flagLogLevel, Arg.strs (getLogLevels env.mapOrder)])
        [Sink.console] ∈ (main env).trace) ∧
    (∀ fn, logLevels.lookup env.flagLogLevel = some fn →
      ((main env).log.sinks .FatalLevel ≠ [] ↔ HasSink env) ∧
      ((main env).log.sinks .ErrorLevel ≠ [] ↔ (env.flagLogLevel ≠ "fatal" ∧ HasSink env)) ∧
      (∀ e, env.Load = .error e →
        Event.Log .FatalLevel (Msg.f "Failed to load configuration: %v" [Arg.err e])
          ((main env).log.sinks .FatalLevel) ∈ (main env).trace) ∧
      (∀ cfg, env.Load = .ok cfg →
        (∀ i p e, desiredPlugins[i]? = some p →
          (∀ j q, j < i → desiredPlugins[j]? = some q →
            env.RegisterPlugin (desiredPlugins.take j) q = none) →
          env.RegisterPlugin (desiredPlugins.take i) p = some e →
          Event.Log .FatalLevel
            (Msg.f "Failed to register plugin '%s': %v" [Arg.str p.Name, Arg.err e])
            ((main env).log.sinks .FatalLevel) ∈ (main env).trace) ∧
        (RegistersAll env →
          (∀ e, env.Start cfg = some e →
            Event.Log .FatalLevel (Msg.f "Failed to start server: %v" [Arg.err e])
              ((main env).log.sinks .FatalLevel) ∈ (main env).trace) ∧
          (env.Start cfg = none → ∀ e, env.Wait cfg = some e →
            ∃ m, Event.Log .ErrorLevel m
              ((main env).log.sinks .ErrorLevel) ∈ (main env).trace)))) := by
  refine ⟨?_, ?_⟩
  · intro hl
    simp [main, hl, hlog, State.Fatalf, State.Log, State.emit, logrusNew, Logger.sinks,
      Logger.IsLevelEnabled, Level.toNat]
  · intro fn hlvl
    rw [main_log env fn hlvl]
    refine ⟨sinks_fatal_iff env fn hlog hlvl, sinks_error_iff env fn hlog hlvl, ?_, ?_⟩
    · intro e hload
      rw [main_load_fail env fn e hlvl hload]
      simp [State.Fatalf, State.Log, State.emit]
    · intro cfg hload
      refine ⟨?_, ?_⟩
      · intro i p e hi hprev hfail
        rw [main_register_fail env fn cfg i p e hlvl hload hi hprev hfail]
        simp [State.Fatalf, State.Log, State.emit]
      · intro hreg
        rw [main_registered env fn cfg hlvl hload hreg]
        refine ⟨?_, ?_⟩
        · intro e hs
          simp [serve, hs, State.Fatalf, State.Log, State.emit]
        · intro hs e hw
          refine ⟨Msg.p [Arg.err e], ?_⟩
          simp [serve, hs, hw, State.Error, State.Log, State.emit]

/-- C9, amended, on two runs with `-loglevel none`, a log file and a
configuration that cannot be loaded: when the file can be written the fatal
message reaches it; when it cannot, the message reaches no sink. -/
theorem C9_failure_reports_witness :
    Event.Log .FatalLevel
        (Msg.f "Failed to load configuration: %v" [Arg.err ⟨"no config file"⟩])
        [Sink.file "/var/log/coredhcp.log"]
      ∈ (main { silentLoadFailEnv with flagLogFile := "/var/log/coredhcp.log" }).trace ∧
    Event.Log .FatalLevel
        (Msg.f "Failed to load configuration: %v" [Arg.err ⟨"no config file"⟩])
        []
      ∈ (main { silentLoadFailEnv with
                flagLogFile := "/dev/null/x.log", canAppend := fun _ => false }).trace :=
  ⟨((C9_failure_reports { silentLoadFailEnv with flagLogFile := "/var/log/coredhcp.log" } rfl).2
      (fun l => l.SetOutput .Discard) rfl).2.2.1 ⟨"no config file"⟩ rfl,
   ((C9_failure_reports
      { silentLoadFailEnv with flagLogFile := "/dev/null/x.log", canAppend := fun _ => false }
      rfl).2 (fun l => l.SetOutput .Discard) rfl).2.2.1 ⟨"no config file"⟩ rfl⟩

/-- C10: whatever order the map iteration visits the keys of `logLevels` in,
`getLogLevels` returns six names without duplicates, a name being in the list
exactly when its lookup succeeds; and the invalid-log-level message of `main`
carries the rejected value and that list. -/
theorem C10_getLogLevels_enumerates_valid (mapOrder : Nat) :
    (getLogLevels mapOrder).length = 6 ∧
    (getLogLevels mapOrder).Nodup ∧
    (∀ s, s ∈ getLogLevels mapOrder ↔ (logLevels.lookup s).isSome) ∧
    (∀ env : Env, env.mapOrder = mapOrder → logLevels.lookup env.flagLogLevel = none →
      (main env).trace =
        [ Event.Log .FatalLevel
            (Msg.f "Invalid log level '%s'. Valid log levels are %v"
              [Arg.str env.flagLogLevel, Arg.strs (getLogLevels mapOrder)])
            (env.GetLogger.sinks .FatalLevel),
          Event.Exit 1 ]) := by
  have h := getLogLevels_perm mapOrder
  refine ⟨?_, ?_, ?_, ?_⟩
  · rw [h.length_eq]; rfl
  · rw [h.nodup_iff]; decide
  · intro s
    rw [lookup_isSome_iff, h.mem_iff]
  · intro env ho hl
    simp [main, hl, ho, State.Fatalf, State.Log, State.emit]

/-- C10 on a run with the rejected level "verbose": the fatal message carries
"verbose" and a list of the six valid names. -/
theorem C10_getLogLevels_enumerates_valid_witness :
    (main { okEnv with flagLogLevel := "verbose" }).trace =
        [ Event.Log .FatalLevel
            (Msg.f "Invalid log level '%s'. Valid log levels are %v"
              [Arg.str "verbose", Arg.strs (getLogLevels 417)])
            [Sink.console],
          Event.Exit 1 ] ∧
    (getLogLevels 417).length = 6 ∧
    (∀ s, s ∈ getLogLevels 417 ↔ (logLevels.lookup s).isSome) :=
  have h := C10_getLogLevels_enumerates_valid 417
  ⟨h.2.2.2 { okEnv with flagLogLevel := "verbose" } rfl rfl, h.1, h.2.2.1⟩

end Coredhcp
